import Mathlib

/-!
Verification of the fault-tolerant link supervisor of the ppp_usbc_c3
firmware.  The definitions below are shallow embeddings of the C functions
of the watchdog module (the revision of watchdog.c with client reachability
checks), the MQTT-broker telemetry module (mqtt_broker.c) and the
PPP-over-USB module (ppp_usb_main.c / the extracted PPP module).
External collaborators (Wi-Fi driver, DHCP server, ping sessions, USB
channel) are modelled as oracles supplied in an environment record; the
embedded functions mirror the C control flow over those oracles and, where
a claim is about side effects, additionally return the trace of the side
effects the C code performs (probes issued, restarts invoked, resources
acquired and released).
-/

namespace PppUsbc3

/-- AP_MAX_CONN from watchdog.c: the cap on the number of station entries
copied into the MAC/IP pair array. -/
def AP_MAX_CONN : Nat := 4

/-- ping_config.timeout_ms in ping_client_ip. -/
def PING_TIMEOUT_MS : Nat := 1000

/-- The extra slack added to the semaphore wait in ping_client_ip:
xSemaphoreTake(result.done, pdMS_TO_TICKS(ping_config.timeout_ms + 200)). -/
def PING_WAIT_EXTRA_MS : Nat := 200

/-- The hard upper bound, in milliseconds, on the wait performed by one
probe: timeout_ms + 200. -/
def PING_WAIT_BOUND_MS : Nat := PING_TIMEOUT_MS + PING_WAIT_EXTRA_MS

/-- Oracle outcomes for the external calls made by one ping_client_ip run:
whether xSemaphoreCreateBinary succeeds, whether esp_ping_new_session
succeeds, and whether an echo reply arrives (the on_ping_success callback
fires) before the bounded wait expires. -/
structure PingEnv where
  semCreateOk : Bool
  sessionCreateOk : Bool
  replyArrives : Bool
deriving DecidableEq, Repr

/-- Resource events performed by ping_client_ip: creation and deletion of
the binary semaphore (the wait primitive), creation and deletion of the
ping session, and the bounded semaphore wait with its bound in ms. -/
inductive ResEvent where
  | semCreate
  | semDelete
  | sessionCreate
  | sessionDelete
  | waitBounded (ms : Nat)
deriving DecidableEq, Repr

/-- ping_client_ip from watchdog.c.  Returns the Boolean the C function
returns together with the trace of resource events it performs, in order.
Path 1: semaphore creation fails, return false (nothing was acquired).
Path 2: session creation fails, delete the semaphore, return false.
Path 3: start the ping, wait at most timeout_ms + 200 ms on the semaphore,
stop and delete the session, delete the semaphore, return result.success
(set by the on_ping_success callback iff a reply arrived). -/
def ping_client_ip (env : PingEnv) : Bool × List ResEvent :=
  if env.semCreateOk = false then
    (false, [])
  else if env.sessionCreateOk = false then
    (false, [ResEvent.semCreate, ResEvent.semDelete])
  else
    (env.replyArrives,
      [ResEvent.semCreate, ResEvent.sessionCreate,
       ResEvent.waitBounded PING_WAIT_BOUND_MS,
       ResEvent.sessionDelete, ResEvent.semDelete])

/-- Checks that a resource event, if it is a wait, has its bound within
the given limit. -/
def eventWaitBoundedBy (bound : Nat) : ResEvent → Bool
  | ResEvent.waitBounded ms => decide (ms ≤ bound)
  | _ => true

/-- Environment of one watchdog monitoring cycle.  staList is the result of
esp_wifi_ap_get_sta_list (none models a non-ESP_OK return; the list holds
the station MACs).  apNetifReady models ap_get_netif() returning non-NULL.
dhcpIps is esp_netif_dhcps_get_clients_by_mac: given the MAC array it
returns none on a non-ESP_OK return, otherwise the per-client leased IPv4
addresses, with 0 standing for an unresolved lease (the C code pre-fills
ip.addr = 0 and the lookup leaves it 0 when there is no lease).  pingEnv
gives the probe environment used when ping_client_ip runs against a given
address.  obkState is the value returned by
mqtt_broker_get_obk_connected_state(). -/
structure WdEnv where
  staList : Option (List Nat)
  apNetifReady : Bool
  dhcpIps : List Nat → Option (List Nat)
  pingEnv : Nat → PingEnv
  obkState : Int

/-- The probe outcome the monitoring loop observes for one address: the
Boolean result of ping_client_ip in that address's probe environment. -/
def probeOk (env : WdEnv) (ip : Nat) : Bool :=
  (ping_client_ip (env.pingEnv ip)).fst

/-- The per-client loop of ping_connected_clients: clients with ip 0 are
skipped (continue), otherwise the client is probed; the first failed probe
returns false immediately.  Returns the overall result together with the
list of addresses actually probed, in order. -/
def pingLoop (probe : Nat → Bool) : List Nat → Bool × List Nat
  | [] => (true, [])
  | ip :: rest =>
    if ip = 0 then
      pingLoop probe rest
    else if probe ip then
      ((pingLoop probe rest).fst, ip :: (pingLoop probe rest).snd)
    else
      (false, [ip])

/-- ping_connected_clients from watchdog.c.  Mirrors the C control flow:
a failed station-list query returns true; an empty station list returns
true; a missing AP netif returns true; the MAC array is capped at
AP_MAX_CONN entries; a failed DHCP lookup returns true; otherwise the
per-client probe loop runs over the first n resolved addresses.  Returns
the Boolean result and the addresses probed. -/
def ping_connected_clients (env : WdEnv) : Bool × List Nat :=
  match env.staList with
  | none => (true, [])
  | some macs =>
    if macs.length = 0 then (true, [])
    else if env.apNetifReady = false then (true, [])
    else
      match env.dhcpIps (macs.take AP_MAX_CONN) with
      | none => (true, [])
      | some ips => pingLoop (probeOk env) (ips.take (macs.take AP_MAX_CONN).length)

/-- Observable effects of one iteration of the watchdog_task loop body. -/
structure CycleOut where
  wdtFeeds : Nat
  restarts : Nat
  screensaverResets : Nat
  probes : List Nat
deriving DecidableEq, Repr

/-- One iteration of the watchdog_task loop body from watchdog.c.  The task
watchdog is fed first; then, if mqtt_broker_get_obk_connected_state() is
not 0, the cycle skips the reachability check entirely; otherwise
ping_connected_clients runs and, exactly when it reports failure, the
cycle blanks the screensaver and calls ap_restart() once. -/
def watchdog_cycle (env : WdEnv) : CycleOut :=
  if env.obkState ≠ 0 then
    { wdtFeeds := 1, restarts := 0, screensaverResets := 0, probes := [] }
  else if (ping_connected_clients env).fst then
    { wdtFeeds := 1, restarts := 0, screensaverResets := 0,
      probes := (ping_connected_clients env).snd }
  else
    { wdtFeeds := 1, restarts := 1, screensaverResets := 1,
      probes := (ping_connected_clients env).snd }

/-- Total number of ap_restart() invocations over a sequence of watchdog
cycles; the cycles run sequentially in the single watchdog task, each
ap_restart() completing within its own cycle. -/
def watchdog_run (envs : List WdEnv) : Nat :=
  (envs.map (fun e => (watchdog_cycle e).restarts)).sum

/-- Initial value of g_obk_connected_state in mqtt_broker.c: -1, meaning no
online/offline telemetry message has ever been received (Unknown). -/
def g_obk_connected_state_init : Int := -1

/-- The whitespace predicate of isspace(3), used by trim_whitespace in
mqtt_broker.c: space, horizontal tab, newline, vertical tab, form feed and
carriage return. -/
def isAsciiSpace (c : Char) : Bool :=
  c = ' ' || c = '\t' || c = '\n' || c = '\x0b' || c = '\x0c' || c = '\r'

/-- trim_whitespace from mqtt_broker.c: strips leading and trailing
whitespace from the payload (modelled over the character list). -/
def trim_whitespace (s : List Char) : List Char :=
  ((s.dropWhile isAsciiSpace).reverse.dropWhile isAsciiSpace).reverse

/-- Case-insensitive comparison, as strcasecmp(tmp, ...) == 0 does in
handle_obk_message: both sides lowered, then compared. -/
def strcaseEq (a b : List Char) : Bool :=
  a.map Char.toLower == b.map Char.toLower

/-- The OBK_CONNECTED_TOPIC branch of handle_obk_message in mqtt_broker.c:
the payload is trimmed; "online" (case-insensitive) sets the state to 1,
"offline" sets it to 0, anything else leaves the state unchanged. -/
def handle_obk_connected (data : List Char) (state : Int) : Int :=
  if strcaseEq (trim_whitespace data) "online".toList then 1
  else if strcaseEq (trim_whitespace data) "offline".toList then 0
  else state

/-- ppp_output_cb from ppp_usb_main.c: usb_serial_jtag_write_bytes returns
the number of bytes written or a negative error; the callback returns 0 on
a negative result and otherwise the written count, cast to u32. -/
def ppp_output_cb (written : Int) : Nat :=
  if written < 0 then 0 else written.toNat

/-- The fixed reconnect delay of the PPP reconnect loop:
vTaskDelay(pdMS_TO_TICKS(2000)) before each pppapi_connect retry. -/
def RECONNECT_DELAY_MS : Nat := 2000

/-- The delay, in milliseconds, the reconnect loop sleeps before the
reconnect attempt following the given number of consecutive failures.
The source keeps no backoff variable at all: the delay is the constant
RECONNECT_DELAY_MS regardless of how many consecutive failures occurred. -/
def reconnectDelayMs (_failures : Nat) : Nat :=
  RECONNECT_DELAY_MS

/-- The event-group bits the reconnect loop wakes up on. -/
structure PppEventBits where
  connected : Bool
  disconn : Bool
deriving DecidableEq, Repr

/-- Actions one iteration of the reconnect loop can perform. -/
inductive ReconnAction where
  | logLinkUp
  | delayMs (ms : Nat)
  | pppConnect
deriving DecidableEq, Repr

/-- One iteration of the reconnect loop body (app_main's forever loop in
ppp_usb_main.c, reproduced verbatim as ppp_reconnect_task in the extracted
PPP module): on PPP_CONNECTED_BIT it logs link-up; on PPP_DISCONN_BIT it
delays the fixed 2000 ms and then calls pppapi_connect. -/
def ppp_reconnect_step (bits : PppEventBits) : List ReconnAction :=
  (if bits.connected then [ReconnAction.logLinkUp] else []) ++
  (if bits.disconn then
    [ReconnAction.delayMs RECONNECT_DELAY_MS, ReconnAction.pppConnect]
   else [])

/-- A concrete cycle environment with one associated client whose lease
resolves to address 5 and whose probe fails (no echo reply arrives), with
the suppression state Offline.  Used as the concrete input of witnesses. -/
def envOneFailingClient : WdEnv :=
  { staList := some [1]
    apNetifReady := true
    dhcpIps := fun _ => some [5]
    pingEnv := fun _ => { semCreateOk := true, sessionCreateOk := true, replyArrives := false }
    obkState := 0 }

/-- A concrete cycle environment whose client snapshot is empty, as after a
real access-point restart has disassociated every client. -/
def envEmptySnapshot : WdEnv :=
  { staList := some []
    apNetifReady := true
    dhcpIps := fun _ => some []
    pingEnv := fun _ => { semCreateOk := true, sessionCreateOk := true, replyArrives := true }
    obkState := 0 }

/-- A concrete cycle environment with suppression state Online and a
nonempty client list of resolvable, reachable clients. -/
def envOnlineSuppressed : WdEnv :=
  { staList := some [1, 2]
    apNetifReady := true
    dhcpIps := fun _ => some [5, 6]
    pingEnv := fun _ => { semCreateOk := true, sessionCreateOk := true, replyArrives := true }
    obkState := 1 }

/-- A concrete cycle environment with suppression state Unknown (-1) and a
nonempty client list of resolvable clients whose probes would fail. -/
def envUnknownSuppressed : WdEnv :=
  { staList := some [1]
    apNetifReady := true
    dhcpIps := fun _ => some [5]
    pingEnv := fun _ => { semCreateOk := true, sessionCreateOk := true, replyArrives := false }
    obkState := -1 }

/-- A concrete cycle environment whose only client has an unresolvable
lease (address 0 in the DHCP pair array). -/
def envUnresolvedLease : WdEnv :=
  { staList := some [1]
    apNetifReady := true
    dhcpIps := fun _ => some [0]
    pingEnv := fun _ => { semCreateOk := true, sessionCreateOk := true, replyArrives := false }
    obkState := 0 }

/-- A concrete cycle environment whose station-list query fails. -/
def envEnumFailure : WdEnv :=
  { staList := none
    apNetifReady := true
    dhcpIps := fun _ => some []
    pingEnv := fun _ => { semCreateOk := true, sessionCreateOk := true, replyArrives := false }
    obkState := 0 }

/-- Unfolding lemma: a failed station-list query makes the cycle succeed
with no probes. -/
theorem ping_cc_of_staList_none (env : WdEnv) (h : env.staList = none) :
    ping_connected_clients env = (true, []) := by
  unfold ping_connected_clients
  rw [h]

/-- Unfolding lemma for ping_connected_clients when the station list is
available. -/
theorem ping_cc_of_staList_some (env : WdEnv) (macs : List Nat)
    (h : env.staList = some macs) :
    ping_connected_clients env =
      (if macs.length = 0 then (true, [])
       else if env.apNetifReady = false then (true, [])
       else
         match env.dhcpIps (macs.take AP_MAX_CONN) with
         | none => (true, [])
         | some ips => pingLoop (probeOk env) (ips.take (macs.take AP_MAX_CONN).length)) := by
  unfold ping_connected_clients
  rw [h]

/-- An empty client snapshot makes the cycle succeed with no probes. -/
theorem ping_cc_of_empty (env : WdEnv) (h : env.staList = some []) :
    ping_connected_clients env = (true, []) := by
  rw [ping_cc_of_staList_some env [] h]
  simp

/-- A cycle whose reachability check succeeds performs no restart and no
screensaver reset. -/
theorem cycle_of_ping_ok (env : WdEnv)
    (h : (ping_connected_clients env).fst = true) :
    (watchdog_cycle env).restarts = 0 := by
  unfold watchdog_cycle
  by_cases hob : env.obkState ≠ 0
  · rw [if_pos hob]
  · rw [if_neg hob, if_pos h]

/-- Every cycle performs at most one restart. -/
theorem cycle_restarts_le_one (env : WdEnv) :
    (watchdog_cycle env).restarts ≤ 1 := by
  unfold watchdog_cycle
  by_cases hob : env.obkState ≠ 0
  · rw [if_pos hob]
    exact Nat.zero_le 1
  · rw [if_neg hob]
    by_cases hr : (ping_connected_clients env).fst = true
    · rw [if_pos hr]
      exact Nat.zero_le 1
    · rw [if_neg hr]

/-- Claim C3: for every monitoring cycle in which the suppression state is
Online (value 1), the cycle issues no reachability probe, regardless of the
contents of the client list, and performs no restart. -/
theorem C3_online_suppresses_probing (env : WdEnv) (h : env.obkState = 1) :
    (watchdog_cycle env).probes = [] ∧ (watchdog_cycle env).restarts = 0 := by
  have hne : env.obkState ≠ 0 := by rw [h]; decide
  unfold watchdog_cycle
  rw [if_pos hne]
  exact ⟨rfl, rfl⟩

/-- Witness for C3 at a concrete environment with suppression state Online
and a nonempty client list of resolvable clients. -/
theorem C3_online_suppresses_probing_witness :
    (watchdog_cycle envOnlineSuppressed).probes = []
    ∧ (watchdog_cycle envOnlineSuppressed).restarts = 0 :=
  C3_online_suppresses_probing envOnlineSuppressed rfl

/-- Claim C4: for every monitoring cycle whose snapshot of associated
clients is empty, the cycle reports success, issues no probe and performs
no restart. -/
theorem C4_empty_snapshot_succeeds (env : WdEnv) (h : env.staList = some []) :
    ping_connected_clients env = (true, [])
    ∧ (watchdog_cycle env).probes = []
    ∧ (watchdog_cycle env).restarts = 0 := by
  have hp : ping_connected_clients env = (true, []) := ping_cc_of_empty env h
  refine ⟨hp, ?_, cycle_of_ping_ok env (by rw [hp])⟩
  unfold watchdog_cycle
  by_cases hob : env.obkState ≠ 0
  · rw [if_pos hob]
  · rw [if_neg hob, if_pos (by rw [hp]), hp]

/-- Witness for C4 at the concrete empty-snapshot environment. -/
theorem C4_empty_snapshot_succeeds_witness :
    ping_connected_clients envEmptySnapshot = (true, [])
    ∧ (watchdog_cycle envEmptySnapshot).probes = []
    ∧ (watchdog_cycle envEmptySnapshot).restarts = 0 :=
  C4_empty_snapshot_succeeds envEmptySnapshot rfl

/-- Claim C8: the outbound transport callback returns the number of bytes
actually written, and returns 0 on a channel write failure (a negative
return from the USB write); the failure is never escalated: the callback
is a total function into the written-byte count, with no other error
path. -/
theorem C8_output_cb_zero_on_failure (wfail wok : Int)
    (hf : wfail < 0) (ho : 0 ≤ wok) :
    ppp_output_cb wfail = 0 ∧ ppp_output_cb wok = wok.toNat := by
  constructor
  · unfold ppp_output_cb
    rw [if_pos hf]
  · unfold ppp_output_cb
    rw [if_neg (by omega)]

/-- Witness for C8 at a failing write (-3) and a successful 42-byte
write. -/
theorem C8_output_cb_zero_on_failure_witness :
    ppp_output_cb (-3) = 0 ∧ ppp_output_cb 42 = Int.toNat 42 :=
  C8_output_cb_zero_on_failure (-3) 42 (by decide) (by decide)

/-- Claim C9: on every return path of a single-client probe — success,
timeout, and session-creation failure alike — the wait primitive (binary
semaphore) and the probe session are released as often as they are
acquired, and every wait the probe performs is bounded by the hard limit
of timeout_ms + 200 milliseconds. -/
theorem C9_probe_releases_resources (env : PingEnv) :
    ((ping_client_ip env).snd.count ResEvent.semCreate
       = (ping_client_ip env).snd.count ResEvent.semDelete)
    ∧ ((ping_client_ip env).snd.count ResEvent.sessionCreate
       = (ping_client_ip env).snd.count ResEvent.sessionDelete)
    ∧ (ping_client_ip env).snd.all (eventWaitBoundedBy PING_WAIT_BOUND_MS) = true := by
  obtain ⟨a, b, c⟩ := env
  cases a <;> cases b <;> cases c <;> decide

/-- Claim C10: when the suppression state is Unknown (internal value -1,
the initial value of g_obk_connected_state, kept until an online/offline
telemetry payload is received: the handler leaves the state unchanged on
any other payload), the supervisor skips the entire reachability check,
exactly as it does for every nonzero state; probing runs only when the
state is exactly Offline (0). -/
theorem C10_unknown_treated_as_suppressed (envU envS : WdEnv) (d : List Char) (s : Int)
    (hU : envU.obkState = g_obk_connected_state_init)
    (hS : envS.obkState ≠ 0)
    (hd : handle_obk_connected d s = g_obk_connected_state_init) :
    (watchdog_cycle envU).probes = []
    ∧ (watchdog_cycle envU).restarts = 0
    ∧ (watchdog_cycle envS).probes = []
    ∧ (watchdog_cycle envS).restarts = 0
    ∧ s = g_obk_connected_state_init := by
  have hneU : envU.obkState ≠ 0 := by rw [hU]; decide
  have hcycle : ∀ e : WdEnv, e.obkState ≠ 0 →
      (watchdog_cycle e).probes = [] ∧ (watchdog_cycle e).restarts = 0 := by
    intro e he
    unfold watchdog_cycle
    rw [if_pos he]
    exact ⟨rfl, rfl⟩
  have hs : s = g_obk_connected_state_init := by
    unfold handle_obk_connected at hd
    unfold g_obk_connected_state_init at hd ⊢
    by_cases h1 : strcaseEq (trim_whitespace d) "online".toList = true
    · rw [if_pos h1] at hd
      omega
    · rw [if_neg h1] at hd
      by_cases h2 : strcaseEq (trim_whitespace d) "offline".toList = true
      · rw [if_pos h2] at hd
        omega
      · rw [if_neg h2] at hd
        exact hd
  exact ⟨(hcycle envU hneU).1, (hcycle envU hneU).2,
         (hcycle envS hS).1, (hcycle envS hS).2, hs⟩

/-- Witness for C10 at the concrete Unknown-state environment, the
concrete Online-state environment, and an unrecognized telemetry payload
received while the state is still its initial -1. -/
theorem C10_unknown_treated_as_suppressed_witness :
    (watchdog_cycle envUnknownSuppressed).probes = []
    ∧ (watchdog_cycle envUnknownSuppressed).restarts = 0
    ∧ (watchdog_cycle envOnlineSuppressed).probes = []
    ∧ (watchdog_cycle envOnlineSuppressed).restarts = 0
    ∧ (-1 : Int) = g_obk_connected_state_init :=
  C10_unknown_treated_as_suppressed envUnknownSuppressed envOnlineSuppressed
    "hello".toList (-1) rfl (by decide) (by decide)

/-- Counterexample to claim C2 as stated: the reconnect delay after one
consecutive failure is not the double of the initial delay — the code
keeps no backoff variable and sleeps the same fixed 2000 ms before every
reconnect attempt (doubling to 4000 ms would still be far below the
tens-of-seconds ceiling the spec describes, so capping cannot explain
it). -/
theorem C2_counterexample :
    ¬ (reconnectDelayMs 1 = 2 * reconnectDelayMs 0)
    ∧ reconnectDelayMs 1 = reconnectDelayMs 0 := by
  constructor
  · decide
  · rfl

/-- Claim C2 as amended: the reconnect delay is the fixed constant 2000 ms
for every consecutive-failure count — it is never doubled and needs no
reset on success — hence trivially monotonically non-decreasing across
consecutive failures; and after any error/close event (PPP_DISCONN_BIT)
the reconnect loop sleeps exactly this fixed delay and then issues a
connect attempt. -/
theorem C2_fixed_reconnect_delay (n : Nat) (bits : PppEventBits)
    (hd : bits.disconn = true) :
    reconnectDelayMs n = RECONNECT_DELAY_MS
    ∧ reconnectDelayMs n ≤ reconnectDelayMs (n + 1)
    ∧ ppp_reconnect_step bits
        = (if bits.connected then [ReconnAction.logLinkUp] else [])
          ++ [ReconnAction.delayMs RECONNECT_DELAY_MS, ReconnAction.pppConnect] := by
  refine ⟨rfl, Nat.le_refl _, ?_⟩
  unfold ppp_reconnect_step
  rw [hd]
  simp

/-- Claim C1: recovery is gated to at most once per failure episode: a
cycle whose reachability check reports overall failure invokes ap_restart
exactly once; a subsequent cycle whose client snapshot is empty (as after
a real restart) invokes no restart; every cycle invokes at most one
restart (the restart runs synchronously inside the single watchdog task,
so no second recovery can start while one is in flight); and the two-cycle
episode performs exactly one restart in total. -/
theorem C1_recovery_once_per_episode (env envNext e : WdEnv)
    (h0 : env.obkState = 0)
    (hfail : (ping_connected_clients env).fst = false)
    (hempty : envNext.staList = some []) :
    (watchdog_cycle env).restarts = 1
    ∧ (watchdog_cycle envNext).restarts = 0
    ∧ (watchdog_cycle e).restarts ≤ 1
    ∧ watchdog_run [env, envNext] = 1 := by
  have h1 : (watchdog_cycle env).restarts = 1 := by
    unfold watchdog_cycle
    rw [if_neg (by rw [h0]; decide), if_neg (by rw [hfail]; decide)]
  have h2 : (watchdog_cycle envNext).restarts = 0 :=
    cycle_of_ping_ok envNext (by rw [ping_cc_of_empty envNext hempty])
  refine ⟨h1, h2, cycle_restarts_le_one e, ?_⟩
  unfold watchdog_run
  simp [h1, h2]

/-- Witness for C1: a first cycle with one client whose lease resolves to
address 5 and whose probe fails, followed by a cycle with an empty client
snapshot. -/
theorem C1_recovery_once_per_episode_witness :
    (watchdog_cycle envOneFailingClient).restarts = 1
    ∧ (watchdog_cycle envEmptySnapshot).restarts = 0
    ∧ (watchdog_cycle envOneFailingClient).restarts ≤ 1
    ∧ watchdog_run [envOneFailingClient, envEmptySnapshot] = 1 :=
  C1_recovery_once_per_episode envOneFailingClient envEmptySnapshot
    envOneFailingClient rfl rfl rfl

/-- Claim C5: a client whose lease resolves to no address (0 in the DHCP
pair array) is skipped without being probed — the probe loop treats it
exactly as if it were absent, its address never appears among the probed
addresses — and it is not counted as a failure; in particular a cycle
whose only client has an unresolvable lease reports success with no
probe. -/
theorem C5_unresolved_lease_skipped (probe : Nat → Bool) (ips : List Nat)
    (env : WdEnv) (m : Nat)
    (h1 : env.staList = some [m]) (h2 : env.dhcpIps [m] = some [0]) :
    pingLoop probe (0 :: ips) = pingLoop probe ips
    ∧ (pingLoop probe ips).snd.contains 0 = false
    ∧ ping_connected_clients env = (true, []) := by
  refine ⟨rfl, ?_, ?_⟩
  · induction ips with
    | nil => rfl
    | cons ip rest ih =>
      by_cases hz : ip = 0
      · subst hz
        exact ih
      · by_cases hp : probe ip = true
        · unfold pingLoop
          rw [if_neg hz, if_pos hp]
          simp only [List.contains_cons, ih, Bool.or_false, beq_eq_false_iff_ne]
          omega
        · unfold pingLoop
          rw [if_neg hz, if_neg hp]
          simp only [List.contains_cons, List.contains_nil, Bool.or_false,
            beq_eq_false_iff_ne]
          omega
  · rw [ping_cc_of_staList_some env [m] h1]
    rw [if_neg (by simp)]
    by_cases ha : env.apNetifReady = false
    · rw [if_pos ha]
    · rw [if_neg ha]
      rw [show ([m].take AP_MAX_CONN) = [m] from rfl, h2]
      rfl

/-- Witness for C5: the probe loop on a lone unresolved address, and the
concrete cycle whose only client has no lease. -/
theorem C5_unresolved_lease_skipped_witness :
    pingLoop (fun _ => false) (0 :: [0]) = pingLoop (fun _ => false) [0]
    ∧ (pingLoop (fun _ => false) [0]).snd.contains 0 = false
    ∧ ping_connected_clients envUnresolvedLease = (true, []) :=
  C5_unresolved_lease_skipped (fun _ => false) [0] envUnresolvedLease 1 rfl rfl

/-- Claim C6: if the cycle cannot enumerate clients, cannot obtain the
access-point network interface, or the lease-table lookup fails, the cycle
is treated as indeterminate and reports success, and no recovery is
triggered. -/
theorem C6_infra_failures_indeterminate (env : WdEnv) (macs : List Nat)
    (h : env.staList = none ∨ env.apNetifReady = false
         ∨ (env.staList = some macs ∧ env.dhcpIps (macs.take AP_MAX_CONN) = none)) :
    (ping_connected_clients env).fst = true
    ∧ (watchdog_cycle env).restarts = 0 := by
  have hp : (ping_connected_clients env).fst = true := by
    rcases h with h | h | ⟨h1, h2⟩
    · rw [ping_cc_of_staList_none env h]
    · cases hs : env.staList with
      | none => rw [ping_cc_of_staList_none env hs]
      | some l =>
        rw [ping_cc_of_staList_some env l hs]
        by_cases hl : l.length = 0
        · rw [if_pos hl]
        · rw [if_neg hl, if_pos h]
    · rw [ping_cc_of_staList_some env macs h1]
      by_cases hl : macs.length = 0
      · rw [if_pos hl]
      · rw [if_neg hl]
        by_cases ha : env.apNetifReady = false
        · rw [if_pos ha]
        · rw [if_neg ha, h2]
  exact ⟨hp, cycle_of_ping_ok env hp⟩

/-- Witness for C6 at the concrete environment whose station-list query
fails. -/
theorem C6_infra_failures_indeterminate_witness :
    (ping_connected_clients envEnumFailure).fst = true
    ∧ (watchdog_cycle envEnumFailure).restarts = 0 :=
  C6_infra_failures_indeterminate envEnumFailure [] (Or.inl rfl)

/-- Claim C7: within one monitoring cycle, the first resolvable client
whose probe fails short-circuits the cycle: the loop reports overall
failure immediately, having probed exactly the resolvable clients before
it plus the failing client itself — no client after the failing one is
probed. -/
theorem C7_first_failure_short_circuits (probe : Nat → Bool) (pre post : List Nat)
    (bad : Nat)
    (hpre : ∀ ip ∈ pre, ip = 0 ∨ probe ip = true)
    (hbad : bad ≠ 0) (hfail : probe bad = false) :
    pingLoop probe (pre ++ bad :: post)
      = (false, pre.filter (fun ip => ip != 0) ++ [bad]) := by
  revert hpre
  induction pre with
  | nil =>
    intro hpre
    simp only [List.nil_append, List.filter_nil]
    unfold pingLoop
    rw [if_neg hbad]
    simp [hfail]
  | cons a pre ih =>
    intro hpre
    have hstep := hpre a (List.mem_cons_self a pre)
    have ih2 := ih fun ip hip => hpre ip (List.mem_cons_of_mem a hip)
    by_cases hz : a = 0
    · subst hz
      simp only [List.cons_append]
      rw [show pingLoop probe (0 :: (pre ++ bad :: post))
            = pingLoop probe (pre ++ bad :: post) from rfl]
      rw [ih2]
      simp [List.filter_cons]
    · have hp : probe a = true := by
        rcases hstep with h | h
        · exact absurd h hz
        · exact h
      simp only [List.cons_append]
      unfold pingLoop
      rw [if_neg hz, if_pos hp, ih2]
      simp [List.filter_cons, hz]

/-- Witness for C7: a failing probe of address 3 after a skipped address 0
and a reachable address 7, with addresses 9 and 11 behind it left
unprobed. -/
theorem C7_first_failure_short_circuits_witness :
    pingLoop (fun ip => decide (ip = 7)) ([0, 7] ++ 3 :: [9, 11])
      = (false, [0, 7].filter (fun ip => ip != 0) ++ [3]) :=
  C7_first_failure_short_circuits (fun ip => decide (ip = 7)) [0, 7] [9, 11] 3
    (by decide) (by decide) (by decide)

/-- Witness for the amended C2 after three consecutive failures, on a
disconnect event. -/
theorem C2_fixed_reconnect_delay_witness :
    reconnectDelayMs 3 = RECONNECT_DELAY_MS
    ∧ reconnectDelayMs 3 ≤ reconnectDelayMs 4
    ∧ ppp_reconnect_step { connected := false, disconn := true }
        = (if ({ connected := false, disconn := true } : PppEventBits).connected
           then [ReconnAction.logLinkUp] else [])
          ++ [ReconnAction.delayMs RECONNECT_DELAY_MS, ReconnAction.pppConnect] :=
  C2_fixed_reconnect_delay 3 { connected := false, disconn := true } rfl

end PppUsbc3
